import Mathlib

/-!
Shallow embedding of `src/web/main.jsx` of the wasmphobia front-end: the
drop/select controller that validates drag-and-drop payloads, maintains the
drop-signal decoration, and hands a dropped WebAssembly file to the rendering
collaborator (`renderFlameGraph`), exposing the result via an object URL.

The DOM pieces the code touches are modelled explicitly:
- a drag item (`DataTransferItem`) is its metadata: `kind` and declared MIME
  `type`;
- a dropped/selected file carries a name, a MIME type and its byte content;
- a `DataTransfer` holds the item list and the file list;
- the drop-signal element's `classList` is modelled by which of the two marker
  classes (`styles.dropValid`, `styles.dropInvalid`) are present, as two
  booleans (`classList.add` is idempotent, `classList.remove` removes);
- the browser state relevant to `process` is the list of live object URLs
  (`URL.createObjectURL` appends a fresh entry and returns its index; the code
  never revokes) and the current `location.href`;
- the rendering collaborator is an explicit function parameter from bytes to
  `Except` (it may reject), since it is external to this fragment.

Event handlers are pure step functions from the signal state to a
`HandlerOutput` recording the new signal, whether `preventDefault` was called,
and the list of `process` invocations the handler performed (with the argument
passed, `Option` because JS indexing out of range yields `undefined`).
-/

namespace Wasmphobia

/-- A `DataTransferItem`: the metadata the code inspects (`item.kind`,
`item.type`). -/
structure DragItem where
  kind : String
  type : String
  deriving DecidableEq, Repr

/-- A JS `File`: name, MIME type, byte content. -/
structure JSFile where
  name : String
  type : String
  content : List Nat
  deriving DecidableEq, Repr

/-- A `DataTransfer`: the dragged item list and the dropped file list. -/
structure DataTransfer where
  items : List DragItem
  files : List JSFile
  deriving DecidableEq, Repr

/-- The drop-signal element's `classList`, restricted to the two marker
classes the code adds and removes: `styles.dropValid` and
`styles.dropInvalid`. A class-set, so membership is a boolean per class. -/
structure DropSignal where
  dropValid : Bool
  dropInvalid : Bool
  deriving DecidableEq, Repr

/-- `function signalDropValid() { dropSignal.classList.add(styles.dropValid); }` -/
def signalDropValid (s : DropSignal) : DropSignal :=
  ⟨true, s.dropInvalid⟩

/-- `function signalDropInvalid() { dropSignal.classList.add(styles.dropInvalid); }` -/
def signalDropInvalid (s : DropSignal) : DropSignal :=
  ⟨s.dropValid, true⟩

/-- `function resetDropSignal() { dropSignal.classList.remove(styles.dropValid, styles.dropInvalid); }` -/
def resetDropSignal (_s : DropSignal) : DropSignal :=
  ⟨false, false⟩

/-- The Neutral decoration: neither marker class present (initial state). -/
def neutralSignal : DropSignal := ⟨false, false⟩

/-- The Valid decoration: exactly the `dropValid` marker present. -/
def validSignal : DropSignal := ⟨true, false⟩

/-- The Invalid decoration: exactly the `dropInvalid` marker present. -/
def invalidSignal : DropSignal := ⟨false, true⟩

/--
```
function isValidWasmDrop(dt) {
  if (dt.items.length != 1) return null;
  const item = dt.items[0];
  if (item.kind != "file") return null;
  if (item.type != "application/wasm") return null;
  return item;
}
```
The unchecked access `dt.items[0]` happens only after the length guard, so it
is embedded as `List.get` at index `0` with the in-bounds proof derived from
the guard. -/
def isValidWasmDrop (dt : DataTransfer) : Option DragItem :=
  if h : dt.items.length ≠ 1 then none
  else
    let item := dt.items.get ⟨0, by omega⟩
    if item.kind ≠ "file" then none
    else if item.type ≠ "application/wasm" then none
    else some item

/-- What one event handler invocation does: the resulting drop-signal state,
whether it called `ev.preventDefault()`, and the arguments of its calls to
`process` (in order; `Option` since `files[0]` on an empty list is
`undefined`). -/
structure HandlerOutput where
  signal : DropSignal
  preventedDefault : Bool
  processCalls : List (Option JSFile)
  deriving DecidableEq, Repr

/--
```
dropZone.ondragover = ev => {
  ev.preventDefault();
  if (!isValidWasmDrop(ev.dataTransfer)) { signalDropInvalid(); return; }
  signalDropValid();
};
```
(`!x` on the returned item-or-`null` is truthiness: `null` is falsy.) -/
def ondragover (s : DropSignal) (dt : DataTransfer) : HandlerOutput :=
  if (isValidWasmDrop dt).isNone then
    { signal := signalDropInvalid s, preventedDefault := true, processCalls := [] }
  else
    { signal := signalDropValid s, preventedDefault := true, processCalls := [] }

/-- `dropZone.ondragleave = () => resetDropSignal();` -/
def ondragleave (s : DropSignal) : HandlerOutput :=
  { signal := resetDropSignal s, preventedDefault := false, processCalls := [] }

/--
```
dropZone.ondrop = ev => {
  ev.preventDefault();
  resetDropSignal();
  if (!isValidWasmDrop(ev.dataTransfer)) return;
  const file = ev.dataTransfer.files[0];
  process(file);
};
```
-/
def ondrop (s : DropSignal) (dt : DataTransfer) : HandlerOutput :=
  let s1 := resetDropSignal s
  if (isValidWasmDrop dt).isNone then
    { signal := s1, preventedDefault := true, processCalls := [] }
  else
    { signal := s1, preventedDefault := true, processCalls := [dt.files.get? 0] }

/-- The drag-and-drop events the drop zone handles. -/
inductive DragEvent where
  | dragover (dt : DataTransfer)
  | dragleave
  | drop (dt : DataTransfer)
  deriving DecidableEq, Repr

/-- Dispatch one event to its handler. -/
def step (s : DropSignal) : DragEvent → HandlerOutput
  | .dragover dt => ondragover s dt
  | .dragleave => ondragleave s
  | .drop dt => ondrop s dt

/-- Run a sequence of drag events, tracking only the drop-signal state. -/
def runSignal (s : DropSignal) (evs : List DragEvent) : DropSignal :=
  evs.foldl (fun s e => (step s e).signal) s

/-- Browser state relevant to `process`: live object URLs (a URL is the index
of its entry; `URL.createObjectURL` never revokes here) and the current page
location (`some u` after navigating to object URL `u`). -/
structure BrowserState where
  objectURLs : List JSFile
  locationHref : Option Nat
  deriving DecidableEq, Repr

/-- `URL.createObjectURL(f)`: issues a fresh URL for `f` (the next free
index) and keeps `f` alive under it. -/
def createObjectURL (f : JSFile) (st : BrowserState) : Nat × BrowserState :=
  (st.objectURLs.length, { st with objectURLs := st.objectURLs ++ [f] })

/--
```
async function process(file) {
  const buf = await new Response(file).arrayBuffer();
  const svg = await renderFlameGraph(buf);
  const svgFile = new File([svg], "flamegraph.svg", { type: "image/svg+xml" });
  const url = URL.createObjectURL(svgFile);
  location.href = url;
}
```
`render` is the external rendering collaborator (`renderFlameGraph`); reading
the file into the buffer yields its whole `content`. A rejection from the
collaborator is not caught: the async function stops there, the browser state
is left as it was, and the error escapes (returned as `some e`). -/
def process (render : List Nat → Except String (List Nat)) (file : JSFile)
    (st : BrowserState) : BrowserState × Option String :=
  let buf := file.content
  match render buf with
  | .error e => (st, some e)
  | .ok svg =>
    let svgFile : JSFile := { name := "flamegraph.svg", type := "image/svg+xml", content := svg }
    let r := createObjectURL svgFile st
    ({ r.2 with locationHref := some r.1 }, none)

/-- Repeated successful/failed renders: run `process` once per file, keeping
the browser state. -/
def runProcesses (render : List Nat → Except String (List Nat))
    (files : List JSFile) (st : BrowserState) : BrowserState :=
  files.foldl (fun s f => (process render f s).1) st

/-! ### Concrete payloads used as test inputs and witnesses -/

/-- A single dragged item declaring a WebAssembly file. -/
def wasmItem : DragItem := ⟨"file", "application/wasm"⟩

/-- A valid drag payload: exactly one `application/wasm` file item. -/
def dtGood : DataTransfer := ⟨[wasmItem], [⟨"a.wasm", "application/wasm", [0, 97]⟩]⟩

/-- An invalid drag payload: no items at all. -/
def dtBad : DataTransfer := ⟨[], []⟩

/-- An invalid drag payload: two items, both `application/wasm`. -/
def dtTwoWasm : DataTransfer := ⟨[wasmItem, wasmItem], []⟩

/-- A rendering collaborator that always succeeds (appends a marker byte). -/
def renderOk : List Nat → Except String (List Nat) :=
  fun buf => .ok (buf ++ [1])

/-- A rendering collaborator that always rejects. -/
def renderErr : List Nat → Except String (List Nat) :=
  fun _ => .error "malformed wasm"

/-- An initial browser state: no object URLs issued, original location. -/
def st0 : BrowserState := ⟨[], none⟩

/-- A concrete dropped file. -/
def fileA : JSFile := ⟨"a.wasm", "application/wasm", [0, 97]⟩

/-! ### Helper lemmas -/

lemma isValidWasmDrop_of_length_ne (dt : DataTransfer) (h : dt.items.length ≠ 1) :
    isValidWasmDrop dt = none := by
  unfold isValidWasmDrop
  rw [dif_pos h]

lemma isValidWasmDrop_single (a : DragItem) (fs : List JSFile) :
    isValidWasmDrop ⟨[a], fs⟩ =
      (if a.kind ≠ "file" then none
       else if a.type ≠ "application/wasm" then none
       else some a) := rfl

lemma isValidWasmDrop_some_iff (dt : DataTransfer) (it : DragItem) :
    isValidWasmDrop dt = some it ↔
      dt.items = [it] ∧ it.kind = "file" ∧ it.type = "application/wasm" := by
  obtain ⟨items, fs⟩ := dt
  match items with
  | [] =>
    rw [isValidWasmDrop_of_length_ne _ (by simp)]
    simp
  | a :: b :: l =>
    rw [isValidWasmDrop_of_length_ne _ (by simp)]
    simp
  | [a] =>
    rw [isValidWasmDrop_single]
    by_cases h1 : a.kind = "file"
    · by_cases h2 : a.type = "application/wasm"
      · rw [if_neg (by simp [h1]), if_neg (by simp [h2])]
        constructor
        · intro h
          rw [Option.some_inj] at h
          subst h
          exact ⟨rfl, h1, h2⟩
        · rintro ⟨hl, -, -⟩
          injection hl with hl
          subst hl
          rfl
      · rw [if_neg (by simp [h1]), if_pos h2]
        refine ⟨fun h => Option.noConfusion h, ?_⟩
        rintro ⟨hl, -, ht⟩
        injection hl with hl
        subst hl
        exact absurd ht h2
    · rw [if_pos h1]
      refine ⟨fun h => Option.noConfusion h, ?_⟩
      rintro ⟨hl, hk, -⟩
      injection hl with hl
      subst hl
      exact absurd hk h1

lemma ondragover_signal (s : DropSignal) (dt : DataTransfer) :
    (ondragover s dt).signal =
      ⟨s.dropValid || (isValidWasmDrop dt).isSome,
       s.dropInvalid || (isValidWasmDrop dt).isNone⟩ := by
  unfold ondragover signalDropValid signalDropInvalid
  cases hv : isValidWasmDrop dt <;> simp [hv]

lemma runSignal_dragover (s : DropSignal) (dts : List DataTransfer) :
    runSignal s (dts.map DragEvent.dragover) =
      ⟨s.dropValid || dts.any (fun dt => (isValidWasmDrop dt).isSome),
       s.dropInvalid || dts.any (fun dt => (isValidWasmDrop dt).isNone)⟩ := by
  induction dts generalizing s with
  | nil => simp [runSignal]
  | cons dt dts ih =>
    simp only [List.map_cons, runSignal, List.foldl_cons, List.any_cons]
    rw [show (step s (DragEvent.dragover dt)).signal = (ondragover s dt).signal from rfl]
    rw [ondragover_signal]
    have := ih ⟨s.dropValid || (isValidWasmDrop dt).isSome,
                s.dropInvalid || (isValidWasmDrop dt).isNone⟩
    simp only [runSignal] at this
    rw [this]
    simp [Bool.or_assoc]

lemma runProcesses_objectURLs (render : List Nat → Except String (List Nat)) :
    ∀ (files : List JSFile) (st : BrowserState),
      (∀ f ∈ files, ∃ svg, render f.content = .ok svg) →
      ∃ rest : List JSFile,
        (runProcesses render files st).objectURLs = st.objectURLs ++ rest ∧
        rest.length = files.length := by
  intro files
  induction files with
  | nil =>
    intro st _
    exact ⟨[], by simp [runProcesses], rfl⟩
  | cons f fs ih =>
    intro st h
    obtain ⟨svg, hsvg⟩ := h f (List.mem_cons_self f fs)
    have hstep : (process render f st).1 =
        { objectURLs := st.objectURLs ++ [⟨"flamegraph.svg", "image/svg+xml", svg⟩],
          locationHref := some st.objectURLs.length } := by
      simp only [process, createObjectURL, hsvg]
    have hrun : runProcesses render (f :: fs) st =
        runProcesses render fs (process render f st).1 := rfl
    obtain ⟨rest, hr, hl⟩ :=
      ih (process render f st).1 (fun g hg => h g (List.mem_cons_of_mem f hg))
    refine ⟨⟨"flamegraph.svg", "image/svg+xml", svg⟩ :: rest, ?_, by simp [hl]⟩
    rw [hrun, hr, hstep]
    simp

/-! ### Claims -/

/-- C1 counterexample: the claim says every drag-over leaves the decoration
exactly Valid or exactly Invalid, never accumulating both markers. But
`signalDropValid`/`signalDropInvalid` only add their class without removing
the other: from Neutral, a drag-over with an invalid payload followed by a
drag-over with a valid payload leaves BOTH marker classes present — a
decoration that is none of Neutral, Valid, Invalid, even though the second
event's predicate matched. -/
theorem dragover_accumulates_both_markers_cex :
    (isValidWasmDrop dtGood).isSome = true ∧
    runSignal neutralSignal [DragEvent.dragover dtBad, DragEvent.dragover dtGood] =
      ⟨true, true⟩ ∧
    runSignal neutralSignal [DragEvent.dragover dtBad, DragEvent.dragover dtGood] ≠
      validSignal ∧
    runSignal neutralSignal [DragEvent.dragover dtBad, DragEvent.dragover dtGood] ≠
      invalidSignal ∧
    runSignal neutralSignal [DragEvent.dragover dtBad, DragEvent.dragover dtGood] ≠
      neutralSignal := by
  decide

/-- C1 (amended): drag-leave and drop always reset the decoration to Neutral,
and a run of consecutive drag-over events from Neutral sets the Valid marker
iff some event's payload satisfied the predicate and the Invalid marker iff
some event's payload failed it — each drag-over adds the marker matching its
predicate outcome while retaining previously set markers, so a drag-over run
leaves exactly Valid (resp. exactly Invalid) precisely when all outcomes were
matches (resp. failures), and both markers accumulate when outcomes differ. -/
theorem dragover_decoration_markers :
    (∀ s : DropSignal, (step s DragEvent.dragleave).signal = neutralSignal) ∧
    (∀ (s : DropSignal) (dt : DataTransfer),
      (step s (DragEvent.drop dt)).signal = neutralSignal) ∧
    (∀ dts : List DataTransfer,
      runSignal neutralSignal (dts.map DragEvent.dragover) =
        ⟨dts.any fun dt => (isValidWasmDrop dt).isSome,
         dts.any fun dt => (isValidWasmDrop dt).isNone⟩) := by
  refine ⟨fun s => rfl, fun s dt => ?_, fun dts => ?_⟩
  · simp only [step, ondrop]
    by_cases hc : (isValidWasmDrop dt).isNone = true <;>
      simp [hc, resetDropSignal, neutralSignal]
  · rw [runSignal_dragover]
    rfl

/-- C2: `isValidWasmDrop` returns the dragged item iff the payload has exactly
one item, of kind `"file"`, with declared MIME type `"application/wasm"`; on
every other payload (in particular two `application/wasm` items, rejected by
the count check) it returns the no-match sentinel `null` (`none`). -/
theorem isValidWasmDrop_characterization (dt : DataTransfer) :
    (∀ it : DragItem, isValidWasmDrop dt = some it ↔
        dt.items = [it] ∧ it.kind = "file" ∧ it.type = "application/wasm") ∧
    (isValidWasmDrop dt = none ↔
      ¬ ∃ it : DragItem,
        dt.items = [it] ∧ it.kind = "file" ∧ it.type = "application/wasm") := by
  refine ⟨fun it => isValidWasmDrop_some_iff dt it, ?_, ?_⟩
  · rintro hnone ⟨it, hit⟩
    exact Option.noConfusion
      ((((isValidWasmDrop_some_iff dt it).mpr hit).symm.trans hnone))
  · intro hne
    cases hv : isValidWasmDrop dt with
    | none => rfl
    | some it => exact absurd ⟨it, (isValidWasmDrop_some_iff dt it).mp hv⟩ hne

/-- C3: a drop whose payload passes `isValidWasmDrop` calls
`ev.preventDefault()`, resets the decoration to Neutral, and invokes
`process` exactly once, passing `ev.dataTransfer.files[0]` — the first
dropped file. -/
theorem drop_valid_invokes_process (s : DropSignal) (dt : DataTransfer)
    (h : isValidWasmDrop dt ≠ none) :
    step s (DragEvent.drop dt) =
      { signal := neutralSignal, preventedDefault := true,
        processCalls := [dt.files.get? 0] } := by
  simp only [step, ondrop]
  rw [if_neg (by simpa [Option.isNone_iff_eq_none] using h)]
  rfl

/-- Witness for C3 at a concrete valid payload. -/
theorem drop_valid_invokes_process_witness :
    step validSignal (DragEvent.drop dtGood) =
      { signal := neutralSignal, preventedDefault := true,
        processCalls := [dtGood.files.get? 0] } :=
  drop_valid_invokes_process validSignal dtGood (by decide)

/-- C4: a drop whose payload fails `isValidWasmDrop` resets the decoration to
Neutral and never invokes `process` — the drop is silently discarded (the
handler still returns normally, surfacing no error). -/
theorem drop_invalid_no_process (s : DropSignal) (dt : DataTransfer)
    (h : isValidWasmDrop dt = none) :
    step s (DragEvent.drop dt) =
      { signal := neutralSignal, preventedDefault := true,
        processCalls := [] } := by
  simp only [step, ondrop]
  rw [if_pos (by simp [h])]
  rfl

/-- Witness for C4 at a concrete invalid payload (two wasm items). -/
theorem drop_invalid_no_process_witness :
    step validSignal (DragEvent.drop dtTwoWasm) =
      { signal := neutralSignal, preventedDefault := true,
        processCalls := [] } :=
  drop_invalid_no_process validSignal dtTwoWasm (by decide)

/-- C5: drag-leave resets the decoration to Neutral from every prior state. -/
theorem dragleave_resets_to_neutral (s : DropSignal) :
    (step s DragEvent.dragleave).signal = neutralSignal := rfl

/-- C6: when the rendering collaborator succeeds on the file's full content,
`process` reads the whole file into the buffer, renders it, wraps the result
as a file named `"flamegraph.svg"` of MIME type `"image/svg+xml"`, issues a
fresh object URL for it (the next free index, keeping prior URLs intact), and
navigates the page to that URL. -/
theorem process_success_steps (render : List Nat → Except String (List Nat))
    (file : JSFile) (st : BrowserState) (svg : List Nat)
    (h : render file.content = .ok svg) :
    process render file st =
      ({ objectURLs := st.objectURLs ++ [⟨"flamegraph.svg", "image/svg+xml", svg⟩],
         locationHref := some st.objectURLs.length }, none) := by
  simp only [process, createObjectURL, h]

/-- Witness for C6 with a concrete always-succeeding collaborator. -/
theorem process_success_steps_witness :
    process renderOk fileA st0 =
      ({ objectURLs := [⟨"flamegraph.svg", "image/svg+xml", [0, 97, 1]⟩],
         locationHref := some 0 }, none) :=
  process_success_steps renderOk fileA st0 [0, 97, 1] rfl

/-- C7: when the rendering collaborator rejects, `process` does not catch the
failure — it escapes (`some e`) — and nothing further happens: no SVG file is
wrapped, no object URL is issued, and the page is not navigated (the browser
state is returned unchanged). -/
theorem process_failure_propagates (render : List Nat → Except String (List Nat))
    (file : JSFile) (st : BrowserState) (e : String)
    (h : render file.content = .error e) :
    process render file st = (st, some e) := by
  simp only [process, h]

/-- Witness for C7 with a concrete always-rejecting collaborator. -/
theorem process_failure_propagates_witness :
    process renderErr fileA st0 = (st0, some "malformed wasm") :=
  process_failure_propagates renderErr fileA st0 "malformed wasm" rfl

/-- C8: `isValidWasmDrop` is a pure function of the dragged items' metadata
(count, `kind`, declared `type`): two payloads with the same item list give
the same result whatever their file lists (and hence contents) are; taking
`dt2 = dt1` gives determinism of repeated evaluation. -/
theorem isValidWasmDrop_metadata_only (dt1 dt2 : DataTransfer)
    (h : dt1.items = dt2.items) :
    isValidWasmDrop dt1 = isValidWasmDrop dt2 := by
  obtain ⟨i1, f1⟩ := dt1
  obtain ⟨i2, f2⟩ := dt2
  change i1 = i2 at h
  subst h
  rfl

/-- Witness for C8: same single wasm item, different file lists. -/
theorem isValidWasmDrop_metadata_only_witness :
    isValidWasmDrop dtGood = isValidWasmDrop ⟨[wasmItem], []⟩ :=
  isValidWasmDrop_metadata_only dtGood ⟨[wasmItem], []⟩ rfl

/-- C9: `process` never revokes an object URL, and each successful render
issues exactly one fresh URL. Across any run of successful renders the
previously issued URLs survive as a prefix of the live list and the list
grows by exactly one entry per render — unbounded growth. -/
theorem objectURLs_grow_without_bound (render : List Nat → Except String (List Nat))
    (files : List JSFile) (st : BrowserState)
    (h : ∀ f ∈ files, ∃ svg, render f.content = .ok svg) :
    ∃ rest : List JSFile,
      (runProcesses render files st).objectURLs = st.objectURLs ++ rest ∧
      rest.length = files.length :=
  runProcesses_objectURLs render files st h

/-- Witness for C9: two successful renders from a fresh browser state. -/
theorem objectURLs_grow_without_bound_witness :
    ∃ rest : List JSFile,
      (runProcesses renderOk [fileA, fileA] st0).objectURLs =
        st0.objectURLs ++ rest ∧
      rest.length = [fileA, fileA].length :=
  objectURLs_grow_without_bound renderOk [fileA, fileA] st0
    (fun f _ => ⟨f.content ++ [1], rfl⟩)

/-- C10: `isValidWasmDrop` is safe on every payload, the empty one included:
when the item count differs from 1 it returns `none` without touching index
0, and when the count is 1 the access `dt.items[0]` is in bounds (`get? 0`
yields an item) and the result is computed from that item; being a total
function, it always returns a value instead of throwing. -/
theorem isValidWasmDrop_safe (dt : DataTransfer) :
    (dt.items.length ≠ 1 → isValidWasmDrop dt = none) ∧
    (dt.items.length = 1 →
      ∃ it : DragItem, dt.items.get? 0 = some it ∧
        isValidWasmDrop dt =
          (if it.kind ≠ "file" then none
           else if it.type ≠ "application/wasm" then none
           else some it)) := by
  refine ⟨isValidWasmDrop_of_length_ne dt, ?_⟩
  obtain ⟨items, fs⟩ := dt
  intro h1
  obtain ⟨a, ha⟩ := List.length_eq_one.mp h1
  change items = [a] at ha
  subst ha
  exact ⟨a, rfl, isValidWasmDrop_single a fs⟩

/-- Witness for C10 at the empty payload. -/
theorem isValidWasmDrop_safe_witness : isValidWasmDrop dtBad = none :=
  (isValidWasmDrop_safe dtBad).1 (by decide)

end Wasmphobia
